import Mathlib

/-!
Verification of the tremor-showcase trace-scoring code.

The repository is a frontend-only showcase: the scoring the user actually
sees is the client-side demo scorer `calculateDemoScore` in
`ProcessingScreen.tsx` together with the classifier
`getSeverityClassification` in `ReportScreen.tsx`.  Those functions are
embedded below over exact reals (JavaScript numbers are modelled as ℝ;
`Math.random()` and the patient questionnaire are explicit inputs).

The backend pipeline (`utils_scoring.py`: clean → polar transform →
features → z-score normalization → weighted sum) is declared in the
backend README but its code is not in the repository; the parts of it the
claims need are modelled from the spec and are marked as such.
-/

namespace Tremor

/-- A captured pointer sample, the `DrawingPoint` interface of the frontend:
position and timestamp (milliseconds). -/
structure DrawingPoint where
  x : ℝ
  y : ℝ
  t : ℝ
deriving Inhabited

/-- Reference spiral parameters, the `SpiralParams` interface: start radius
`a` and per-radian growth rate `b`. -/
structure SpiralParams where
  a : ℝ
  b : ℝ

/-- The intake questionnaire record, the `QuestionnaireData` interface. -/
structure QuestionnaireData where
  age : String
  hasMovementDisorder : String
  disorderType : String

/-- The four discrete severity classes of the report. -/
inductive Classification where
  | normal
  | mild
  | moderate
  | severe
deriving DecidableEq, Repr

/-- The function `getSeverityClassification` from `ReportScreen.tsx` (lines 41–46):
`score < 0.3 → Normal`, `score < 1.0 → Mild`, `score < 2.0 → Moderate`,
otherwise `Severe`. -/
noncomputable def getSeverityClassification (score : ℝ) : Classification :=
  if score < 0.3 then .normal
  else if score < 1.0 then .mild
  else if score < 2.0 then .moderate
  else .severe

/-- Claim C1: the classifier maps a severity score to a class exactly at the
documented boundaries: `s < 0.3` is Normal, `0.3 ≤ s < 1.0` is Mild,
`1.0 ≤ s < 2.0` is Moderate, `s ≥ 2.0` is Severe; in particular `0.299999`
classifies as Normal and exactly `0.3` classifies as Mild. -/
theorem classification_boundaries_exact (s : ℝ) :
    (s < 0.3 → getSeverityClassification s = .normal)
    ∧ (0.3 ≤ s → s < 1.0 → getSeverityClassification s = .mild)
    ∧ (1.0 ≤ s → s < 2.0 → getSeverityClassification s = .moderate)
    ∧ (2.0 ≤ s → getSeverityClassification s = .severe)
    ∧ getSeverityClassification (0.299999 : ℝ) = .normal
    ∧ getSeverityClassification (0.3 : ℝ) = .mild := by
  refine ⟨?_, ?_, ?_, ?_, ?_, ?_⟩ <;>
    first
      | (intro h₁ h₂
         unfold getSeverityClassification
         rw [if_neg (by linarith), if_pos (by linarith)])
      | (intro h₁ h₂
         unfold getSeverityClassification
         rw [if_neg (by linarith), if_neg (by linarith), if_pos (by linarith)])
      | (intro h₁
         unfold getSeverityClassification
         rw [if_pos (by linarith)])
      | (intro h₁
         unfold getSeverityClassification
         rw [if_neg (by linarith), if_neg (by linarith), if_neg (by linarith)])
      | (unfold getSeverityClassification
         norm_num)

/-- Concrete instances of C1: a score of 0.5 is Mild and a score of 2.5 is
Severe, by the boundary theorem. -/
theorem classification_boundaries_exact_witness :
    getSeverityClassification (0.5 : ℝ) = .mild
    ∧ getSeverityClassification (2.5 : ℝ) = .severe :=
  ⟨(classification_boundaries_exact 0.5).2.1 (by norm_num) (by norm_num),
   (classification_boundaries_exact 2.5).2.2.2.1 (by norm_num)⟩

/-! ## The demo scorer of `ProcessingScreen.tsx` (`calculateDemoScore`) -/

/-- JavaScript `Math.atan2 y x`: the angle of the point `(x, y)`, in `(-π, π]`, with
`atan2 0 0 = 0` as in JavaScript. -/
noncomputable def atan2 (y x : ℝ) : ℝ :=
  if 0 < x then Real.arctan (y / x)
  else if x < 0 then
    (if 0 ≤ y then Real.arctan (y / x) + Real.pi else Real.arctan (y / x) - Real.pi)
  else if 0 < y then Real.pi / 2
  else if y < 0 then -(Real.pi / 2)
  else 0

/-- Euclidean distance between two samples, `Math.sqrt(dx*dx + dy*dy)`. -/
noncomputable def dist2 (p q : DrawingPoint) : ℝ :=
  Real.sqrt ((q.x - p.x) ^ 2 + (q.y - p.y) ^ 2)

/-- The list of consecutive inter-point distances `dist` computed by the
`for` loop of `calculateDemoScore` (one entry per index `i ≥ 1`). -/
noncomputable def stepDistances : List DrawingPoint → List ℝ
  | p :: q :: rest => dist2 p q :: stepDistances (q :: rest)
  | _ => []

/-- Sum of `|next - previous|` over consecutive entries of a list: the
`variations` accumulator of `calculateDemoScore` applied to the distance
list. -/
noncomputable def sumAbsDeltas : List ℝ → ℝ
  | a :: b :: rest => |b - a| + sumAbsDeltas (b :: rest)
  | _ => 0

/-- The `variations` total of `calculateDemoScore`. -/
noncomputable def variations (pts : List DrawingPoint) : ℝ :=
  sumAbsDeltas (stepDistances pts)

/-- The `totalDistance` total of `calculateDemoScore`. -/
noncomputable def totalDistance (pts : List DrawingPoint) : ℝ :=
  (stepDistances pts).sum

/-- The metric `avgVariation = variations / Math.max(1, spiralPoints.length - 2)`.
Nat subtraction truncates at 0 exactly as `Math.max(1, ·)` needs. -/
noncomputable def avgVariation (pts : List DrawingPoint) : ℝ :=
  variations pts / (max 1 (pts.length - 2) : ℕ)

/-- The metric `avgDistance = totalDistance / Math.max(1, spiralPoints.length - 1)`. -/
noncomputable def avgDistance (pts : List DrawingPoint) : ℝ :=
  totalDistance pts / (max 1 (pts.length - 1) : ℕ)

/-- One term of the deviation loop of `calculateDemoScore`: the loop uses
`(spiralParams.a, spiralParams.a)` as the centre, the raw (wrapped)
`Math.atan2` angle, and `|actualRadius - idealRadius|`. -/
noncomputable def devTerm (params : SpiralParams) (p : DrawingPoint) : ℝ :=
  |Real.sqrt ((p.x - params.a) ^ 2 + (p.y - params.a) ^ 2)
    - (params.a + params.b * atan2 (p.y - params.a) (p.x - params.a))|

/-- The `deviation` metric of `calculateDemoScore`: summed over the first
`Math.min(100, spiralPoints.length)` points, then divided by that count. -/
noncomputable def spiralDeviation (params : SpiralParams) (pts : List DrawingPoint) : ℝ :=
  ((pts.take 100).map (devTerm params)).sum / (min 100 pts.length : ℕ)

/-- The combination `baseScore = (Math.min(avgVar/10, 2.0) + Math.min(dev/50, 2.0)) / 2`,
as a function of the two feature values. -/
noncomputable def combineScores (avgVar dev : ℝ) : ℝ :=
  (min (avgVar / 10) 2.0 + min (dev / 50) 2.0) / 2

/-- The adjustment step of `calculateDemoScore`: the base score plus 0.3 when the questionnaire answered
`hasMovementDisorder === 'yes'`. -/
noncomputable def adjustScore (base : ℝ) (info : QuestionnaireData) : ℝ :=
  base + (if info.hasMovementDisorder = "yes" then 0.3 else 0)

/-- Clamping to `[0, 3]`: `Math.max(0, Math.min(3, x))`. -/
noncomputable def clamp03 (x : ℝ) : ℝ :=
  max 0 (min 3 x)

/-- The score before clamping, with the `Math.random()` draw `r` an explicit
input: `adjustedScore + (r - 0.5) * 0.4`. -/
noncomputable def scoreOfFeatures (avgVar dev : ℝ) (info : QuestionnaireData) (r : ℝ) : ℝ :=
  adjustScore (combineScores avgVar dev) info + (r - 0.5) * 0.4

/-- The clamped `finalScore = Math.max(0, Math.min(3, adjustedScore + randomFactor))`
on the features extracted from the trace. -/
noncomputable def finalScore (pts : List DrawingPoint) (params : SpiralParams)
    (info : QuestionnaireData) (r : ℝ) : ℝ :=
  clamp03 (scoreOfFeatures (avgVariation pts) (spiralDeviation params pts) info r)

/-- The numeric metrics table of the demo result (`features.metrics`).
The code formats the last three with `toFixed(2)` for display; equal reals
format equally, so the underlying reals are stored. -/
structure DemoMetrics where
  totalPoints : ℕ
  totalTime : ℝ
  averageVariation : ℝ
  averageDistance : ℝ
  deviation : ℝ

/-- The demo `ScoreData` fields the claims are about: the severity score and
the metrics table.  (`spiral_id = Date.now()` identifies the record and is
not a feature or score; `classification` is the constant string
`'tremor_score_demo'`.) -/
structure ScoreData where
  severityScore : ℝ
  metrics : DemoMetrics

/-- The metrics computed by `calculateDemoScore` from the trace alone. -/
noncomputable def demoMetrics (pts : List DrawingPoint) (params : SpiralParams) : DemoMetrics :=
  { totalPoints := pts.length
    totalTime := match pts.getLast? with
      | some p => p.t
      | none => 0
    averageVariation := avgVariation pts
    averageDistance := avgDistance pts
    deviation := spiralDeviation params pts }

/-- The full demo scoring result for a trace, questionnaire and draw `r`. -/
noncomputable def demoResult (pts : List DrawingPoint) (params : SpiralParams)
    (info : QuestionnaireData) (r : ℝ) : ScoreData :=
  { severityScore := finalScore pts params info r
    metrics := demoMetrics pts params }

/-- The function `calculateDemoScore` including its guard: with no points it reports the
error message and produces no score. -/
noncomputable def processDemo (pts : List DrawingPoint) (params : SpiralParams)
    (info : QuestionnaireData) (r : ℝ) : Except String ScoreData :=
  if pts.length = 0 then
    .error ("Missing patient data, spiral points, or spiral parameters")
  else
    .ok (demoResult pts params info r)

/-! ## Concrete inputs used by witnesses and counterexamples -/

/-- A three-sample trace resting at the canvas origin (timestamps 0, 1, 2). -/
noncomputable def centerPts : List DrawingPoint :=
  [⟨0, 0, 0⟩, ⟨0, 0, 1⟩, ⟨0, 0, 2⟩]

/-- Spiral parameters `a = 0`, `b = 1`, putting the deviation centre at
the origin. -/
noncomputable def unitParams : SpiralParams := ⟨0, 1⟩

/-- A questionnaire answering yes to the movement-disorder question. -/
def infoYes : QuestionnaireData := ⟨"42", "yes", "Essential Tremor"⟩

/-- A questionnaire answering no to the movement-disorder question. -/
def infoNo : QuestionnaireData := ⟨"42", "no", ""⟩

lemma atan2_zero_zero : atan2 0 0 = 0 := by
  unfold atan2
  norm_num

lemma avgVariation_centerPts : avgVariation centerPts = 0 := by
  simp [avgVariation, variations, centerPts, stepDistances, dist2, sumAbsDeltas]

lemma spiralDeviation_centerPts : spiralDeviation unitParams centerPts = 0 := by
  simp [spiralDeviation, centerPts, unitParams, devTerm, atan2_zero_zero]

lemma finalScore_centerPts (info : QuestionnaireData) (r : ℝ) :
    finalScore centerPts unitParams info r
      = clamp03 ((if info.hasMovementDisorder = "yes" then (0.3 : ℝ) else 0) + (r - 0.5) * 0.4) := by
  rw [finalScore, avgVariation_centerPts, spiralDeviation_centerPts]
  unfold scoreOfFeatures adjustScore combineScores
  norm_num

lemma finalScore_centerPts_yes :
    finalScore centerPts unitParams infoYes (1 / 2) = 0.3 := by
  rw [finalScore_centerPts]
  norm_num [infoYes, clamp03]

lemma finalScore_centerPts_no :
    finalScore centerPts unitParams infoNo (1 / 2) = 0 := by
  rw [finalScore_centerPts, show infoNo.hasMovementDisorder = "no" from rfl,
    if_neg (by decide)]
  norm_num [clamp03]

lemma finalScore_centerPts_no_one :
    finalScore centerPts unitParams infoNo 1 = 0.2 := by
  rw [finalScore_centerPts, show infoNo.hasMovementDisorder = "no" from rfl,
    if_neg (by decide)]
  norm_num [clamp03]

/-! ## Claims C6 and C8: clamping and monotonicity -/

/-- Claim C6: every successfully scored trace has its severity score in
`[0, 3]`: the demo scorer clamps the raw score to `[0, 3]` (the
classification is computed later, from the clamped score). -/
theorem severity_score_in_unit_interval (pts : List DrawingPoint) (params : SpiralParams)
    (info : QuestionnaireData) (r : ℝ) (res : ScoreData)
    (h : processDemo pts params info r = Except.ok res) :
    0 ≤ res.severityScore ∧ res.severityScore ≤ 3
    ∧ res.severityScore
        = clamp03 (scoreOfFeatures (avgVariation pts) (spiralDeviation params pts) info r) := by
  rw [processDemo] at h
  split at h
  · exact absurd h (by simp)
  · simp only [Except.ok.injEq] at h
    subst h
    refine ⟨le_max_left 0 _, ?_, rfl⟩
    exact max_le (by norm_num) (min_le_left 3 _)

/-- Concrete instance of C6: the origin-resting trace scores successfully
and its score lies in `[0, 3]`. -/
theorem severity_score_in_unit_interval_witness :
    0 ≤ (demoResult centerPts unitParams infoNo (1 / 2)).severityScore
    ∧ (demoResult centerPts unitParams infoNo (1 / 2)).severityScore ≤ 3
    ∧ (demoResult centerPts unitParams infoNo (1 / 2)).severityScore
        = clamp03 (scoreOfFeatures (avgVariation centerPts) (spiralDeviation unitParams centerPts)
            infoNo (1 / 2)) :=
  severity_score_in_unit_interval centerPts unitParams infoNo (1 / 2) _
    (by rw [processDemo]; simp [centerPts])

/-- Claim C8: the severity score is monotone in the deviation feature: with
the smoothness feature, questionnaire and random draw held fixed, a larger
deviation never yields a smaller score, through both the score combination
and the clamping; and the pipeline's score is exactly this clamped
combination applied to the extracted features. -/
theorem score_monotone_in_deviation (avgVar dev₁ dev₂ : ℝ) (info : QuestionnaireData) (r : ℝ)
    (h : dev₁ ≤ dev₂) :
    clamp03 (scoreOfFeatures avgVar dev₁ info r) ≤ clamp03 (scoreOfFeatures avgVar dev₂ info r)
    ∧ ∀ (pts : List DrawingPoint) (params : SpiralParams),
        finalScore pts params info r
          = clamp03 (scoreOfFeatures (avgVariation pts) (spiralDeviation params pts) info r) := by
  refine ⟨?_, fun pts params => rfl⟩
  unfold clamp03 scoreOfFeatures adjustScore combineScores
  gcongr

/-- Concrete instance of C8: deviation 0 versus deviation 50, smoothness 0,
draw 1/2. -/
theorem score_monotone_in_deviation_witness :
    clamp03 (scoreOfFeatures 0 0 infoNo (1 / 2))
      ≤ clamp03 (scoreOfFeatures 0 50 infoNo (1 / 2)) :=
  (score_monotone_in_deviation 0 0 50 infoNo (1 / 2) (by norm_num)).1

/-! ## Claim C3: determinism of the demo scorer -/

/-- Claim C3 counterexample: the demo scorer is not independent of the
`Math.random()` draw — on the origin-resting trace, draws 1/2 and 1 give
severity scores 0 and 0.2, so two invocations of the scorer on identical
input (trace, parameters, questionnaire) need not agree. -/
theorem scoring_not_independent_of_draw :
    ¬ ∀ (pts : List DrawingPoint) (params : SpiralParams) (info : QuestionnaireData)
        (r₁ r₂ : ℝ),
        (demoResult pts params info r₁).metrics = (demoResult pts params info r₂).metrics
        ∧ (demoResult pts params info r₁).severityScore
            = (demoResult pts params info r₂).severityScore := by
  intro h
  have hs := (h centerPts unitParams infoNo (1 / 2) 1).2
  rw [show (demoResult centerPts unitParams infoNo (1 / 2)).severityScore
        = finalScore centerPts unitParams infoNo (1 / 2) from rfl,
      show (demoResult centerPts unitParams infoNo 1).severityScore
        = finalScore centerPts unitParams infoNo 1 from rfl,
      finalScore_centerPts_no, finalScore_centerPts_no_one] at hs
  norm_num at hs

/-- Claim C3 amended: the demo scorer is a pure function of the trace,
reference parameters, questionnaire and the random draw — the feature
values do not depend on the draw at all, and two invocations with the same
draw produce the identical result record. -/
theorem scoring_deterministic_given_draw (pts : List DrawingPoint) (params : SpiralParams)
    (info : QuestionnaireData) (r₁ r₂ : ℝ) :
    (demoResult pts params info r₁).metrics = (demoResult pts params info r₂).metrics
    ∧ (r₁ = r₂ → demoResult pts params info r₁ = demoResult pts params info r₂) :=
  ⟨rfl, fun h => by rw [h]⟩

/-- Concrete instance of amended C3: on the origin-resting trace the metrics
agree across distinct draws 1/2 and 1, and equal draws give equal results. -/
theorem scoring_deterministic_given_draw_witness :
    (demoResult centerPts unitParams infoNo (1 / 2)).metrics
      = (demoResult centerPts unitParams infoNo 1).metrics
    ∧ demoResult centerPts unitParams infoNo (1 / 2)
        = demoResult centerPts unitParams infoNo (1 / 2) :=
  ⟨(scoring_deterministic_given_draw centerPts unitParams infoNo (1 / 2) 1).1,
   (scoring_deterministic_given_draw centerPts unitParams infoNo (1 / 2) (1 / 2)).2 rfl⟩

/-! ## Claim C9: the questionnaire shifts the score -/

/-- Claim C9: with the draw held fixed, answering yes to the
movement-disorder question yields a pre-clamp score exactly 0.3 greater
than answering no on the identical trace; and on a concrete identical
drawing the two final severity scores — and their classifications — differ. -/
theorem questionnaire_shifts_score (pts : List DrawingPoint) (params : SpiralParams)
    (info₁ info₂ : QuestionnaireData) (r : ℝ)
    (h₁ : info₁.hasMovementDisorder = "yes") (h₂ : info₂.hasMovementDisorder = "no") :
    scoreOfFeatures (avgVariation pts) (spiralDeviation params pts) info₁ r
      = scoreOfFeatures (avgVariation pts) (spiralDeviation params pts) info₂ r + 0.3
    ∧ (demoResult centerPts unitParams infoYes (1 / 2)).severityScore
        ≠ (demoResult centerPts unitParams infoNo (1 / 2)).severityScore
    ∧ getSeverityClassification (demoResult centerPts unitParams infoYes (1 / 2)).severityScore
        ≠ getSeverityClassification
            (demoResult centerPts unitParams infoNo (1 / 2)).severityScore := by
  have hy : (demoResult centerPts unitParams infoYes (1 / 2)).severityScore = 0.3 :=
    finalScore_centerPts_yes
  have hn : (demoResult centerPts unitParams infoNo (1 / 2)).severityScore = 0 :=
    finalScore_centerPts_no
  refine ⟨?_, ?_, ?_⟩
  · unfold scoreOfFeatures adjustScore
    rw [h₁, h₂, if_pos rfl, if_neg (by decide)]
    ring
  · rw [hy, hn]
    norm_num
  · rw [hy, hn]
    have h03 : getSeverityClassification (0.3 : ℝ) = .mild := by
      unfold getSeverityClassification
      norm_num
    have h0 : getSeverityClassification (0 : ℝ) = .normal := by
      unfold getSeverityClassification
      norm_num
    rw [h03, h0]
    decide

/-- Concrete instance of C9 at the yes/no questionnaires on the
origin-resting trace. -/
theorem questionnaire_shifts_score_witness :
    scoreOfFeatures (avgVariation centerPts) (spiralDeviation unitParams centerPts) infoYes (1 / 2)
      = scoreOfFeatures (avgVariation centerPts) (spiralDeviation unitParams centerPts) infoNo
          (1 / 2) + 0.3
    ∧ (demoResult centerPts unitParams infoYes (1 / 2)).severityScore
        ≠ (demoResult centerPts unitParams infoNo (1 / 2)).severityScore
    ∧ getSeverityClassification (demoResult centerPts unitParams infoYes (1 / 2)).severityScore
        ≠ getSeverityClassification
            (demoResult centerPts unitParams infoNo (1 / 2)).severityScore :=
  questionnaire_shifts_score centerPts unitParams infoYes infoNo (1 / 2) rfl rfl

/-! ## Claim C7: the smoothness metric as an explicit mean -/

lemma getD_cons_succ_eq {α : Type} (a : α) (l : List α) (n : ℕ) (d : α) :
    (a :: l).getD (n + 1) d = l.getD n d := rfl

lemma getD_cons_zero_eq {α : Type} (a : α) (l : List α) (d : α) :
    (a :: l).getD 0 d = a := rfl

lemma sumAbsDeltas_eq_sum (l : List ℝ) :
    sumAbsDeltas l
      = ∑ i ∈ Finset.range (l.length - 1), |l.getD (i + 1) 0 - l.getD i 0| := by
  induction l with
  | nil => simp [sumAbsDeltas]
  | cons a l ih =>
    cases l with
    | nil => simp [sumAbsDeltas]
    | cons b rest =>
      rw [show sumAbsDeltas (a :: b :: rest) = |b - a| + sumAbsDeltas (b :: rest) from rfl, ih]
      rw [show (a :: b :: rest).length - 1 = ((b :: rest).length - 1) + 1 by simp]
      rw [Finset.sum_range_succ']
      simp only [getD_cons_succ_eq, getD_cons_zero_eq]
      ring

lemma stepDistances_length (pts : List DrawingPoint) :
    (stepDistances pts).length = pts.length - 1 := by
  induction pts with
  | nil => simp [stepDistances]
  | cons p l ih =>
    cases l with
    | nil => simp [stepDistances]
    | cons q rest =>
      rw [show stepDistances (p :: q :: rest) = dist2 p q :: stepDistances (q :: rest) from rfl]
      simp only [List.length_cons, ih]
      simp

lemma stepDistances_getD (pts : List DrawingPoint) (i : ℕ) (h : i + 1 < pts.length) :
    (stepDistances pts).getD i 0
      = dist2 (pts.getD i default) (pts.getD (i + 1) default) := by
  induction pts generalizing i with
  | nil => simp at h
  | cons p l ih =>
    cases l with
    | nil =>
      rw [List.length_cons, List.length_nil] at h
      omega
    | cons q rest =>
      cases i with
      | zero => rfl
      | succ i =>
        have h' : i + 1 < (q :: rest).length := by
          simp only [List.length_cons] at h ⊢
          omega
        exact ih i h'

/-- Claim C7: for a trace of `n ≥ 3` points the smoothness metric
(`avgVariation`, reported as the `Average variation` feature) is the
arithmetic mean of the absolute differences of consecutive inter-point
distances: the sum of the `n − 2` difference terms divided by `n − 2`. -/
theorem path_smoothness_is_mean_abs_delta (pts : List DrawingPoint) (h : 3 ≤ pts.length) :
    avgVariation pts
      = (∑ i ∈ Finset.range (pts.length - 2),
          |dist2 (pts.getD (i + 1) default) (pts.getD (i + 2) default)
            - dist2 (pts.getD i default) (pts.getD (i + 1) default)|)
        / ((pts.length - 2 : ℕ) : ℝ) := by
  unfold avgVariation variations
  rw [show max 1 (pts.length - 2) = pts.length - 2 by omega]
  rw [sumAbsDeltas_eq_sum, stepDistances_length]
  rw [show pts.length - 1 - 1 = pts.length - 2 by omega]
  congr 1
  refine Finset.sum_congr rfl fun i hi => ?_
  have hi' : i < pts.length - 2 := Finset.mem_range.mp hi
  rw [stepDistances_getD pts i (by omega), stepDistances_getD pts (i + 1) (by omega)]

/-- Concrete instance of C7 on a three-point trace along the x-axis. -/
theorem path_smoothness_is_mean_abs_delta_witness :
    avgVariation [⟨0, 0, 0⟩, ⟨1, 0, 1⟩, ⟨3, 0, 2⟩]
      = (∑ i ∈ Finset.range (([⟨0, 0, 0⟩, ⟨1, 0, 1⟩, (⟨3, 0, 2⟩ : DrawingPoint)].length) - 2),
          |dist2 ([⟨0, 0, 0⟩, ⟨1, 0, 1⟩, ⟨3, 0, 2⟩].getD (i + 1) default)
              ([⟨0, 0, 0⟩, ⟨1, 0, 1⟩, ⟨3, 0, 2⟩].getD (i + 2) default)
            - dist2 ([⟨0, 0, 0⟩, ⟨1, 0, 1⟩, ⟨3, 0, 2⟩].getD i default)
              ([⟨0, 0, 0⟩, ⟨1, 0, 1⟩, ⟨3, 0, 2⟩].getD (i + 1) default)|)
        / ((([⟨0, 0, 0⟩, ⟨1, 0, 1⟩, (⟨3, 0, 2⟩ : DrawingPoint)].length) - 2 : ℕ) : ℝ) :=
  path_smoothness_is_mean_abs_delta [⟨0, 0, 0⟩, ⟨1, 0, 1⟩, ⟨3, 0, 2⟩] (by simp)

/-! ## Claim C10: the deviation metric reads only the first 100 points -/

/-- Claim C10: the deviation metric of the demo scorer is computed over the
first `min(100, n)` points only — two traces of length at least 100 that
agree on their first 100 points receive the identical deviation value,
however they differ from index 100 on. -/
theorem deviation_depends_on_first_100 (pts₁ pts₂ : List DrawingPoint) (params : SpiralParams)
    (h₁ : 100 ≤ pts₁.length) (h₂ : 100 ≤ pts₂.length)
    (hagree : ∀ i, i < 100 → pts₁.getD i default = pts₂.getD i default) :
    spiralDeviation params pts₁ = spiralDeviation params pts₂ := by
  unfold spiralDeviation
  have htake : pts₁.take 100 = pts₂.take 100 := by
    apply List.ext_getElem
    · simp only [List.length_take]
      omega
    · intro i hi₁ hi₂
      have hi : i < 100 := by
        simp only [List.length_take] at hi₁
        omega
      rw [List.getElem_take, List.getElem_take]
      have hg := hagree i hi
      have hb₁ : i < pts₁.length := by omega
      have hb₂ : i < pts₂.length := by omega
      have e₁ : pts₁.getD i default = pts₁.get ⟨i, hb₁⟩ :=
        List.getD_eq_get pts₁ default hb₁
      have e₂ : pts₂.getD i default = pts₂.get ⟨i, hb₂⟩ :=
        List.getD_eq_get pts₂ default hb₂
      rw [e₁, e₂, List.get_eq_getElem, List.get_eq_getElem] at hg
      exact hg
  rw [htake, Nat.min_eq_left h₁, Nat.min_eq_left h₂]

lemma getD_replicate_of_lt {α : Type} (a d : α) :
    ∀ (n i : ℕ), i < n → (List.replicate n a).getD i d = a := by
  intro n
  induction n with
  | zero => intro i hi; omega
  | succ n ih =>
    intro i hi
    cases i with
    | zero => rfl
    | succ i =>
      rw [List.replicate_succ, getD_cons_succ_eq]
      exact ih i (by omega)

/-- Concrete instance of C10: 100 copies of the origin sample versus 101
copies agree on the deviation metric. -/
theorem deviation_depends_on_first_100_witness :
    spiralDeviation unitParams (List.replicate 100 (⟨0, 0, 0⟩ : DrawingPoint))
      = spiralDeviation unitParams (List.replicate 101 (⟨0, 0, 0⟩ : DrawingPoint)) :=
  deviation_depends_on_first_100 _ _ unitParams (by simp) (by simp)
    (fun i hi => by
      rw [getD_replicate_of_lt _ _ _ _ hi, getD_replicate_of_lt _ _ _ _ (by omega)])

/-! ## The backend pipeline stages the claims need

The backend scoring module (`utils_scoring.py`: clean → polar transform →
features → z-scores → weighted sum) is declared in the backend README but
its code is not in the repository; the stages below are modelled from the
spec. -/

/-- The spec's error taxonomy (§7). -/
inductive PipelineError where
  | insufficientData
  | degenerateGeometry
  | featureComputation
  | missingReferenceStat
  | degenerateStat
deriving DecidableEq, Repr

/-- Modelled from the spec: the Trace Cleaner loop of the missing
`utils_scoring.py` — a point is kept iff its `t` strictly exceeds the
previous kept point's `t` and it is not within distance ε of the previous
kept point (§4.1). -/
noncomputable def cleanFrom (eps : ℝ) (prev : DrawingPoint) :
    List DrawingPoint → List DrawingPoint
  | [] => []
  | p :: rest =>
      if prev.t < p.t ∧ ¬ dist2 prev p < eps then p :: cleanFrom eps p rest
      else cleanFrom eps prev rest

/-- Modelled from the spec: the Trace Cleaner of the missing
`utils_scoring.py` — the first point is kept, later points per
`cleanFrom` (§4.1). -/
noncomputable def cleanTrace (eps : ℝ) : List DrawingPoint → List DrawingPoint
  | [] => []
  | p :: rest => p :: cleanFrom eps p rest

/-- Modelled from the spec: the cleaning stage fails with
`InsufficientDataError` when fewer than 2 points remain (§4.1). -/
noncomputable def cleanStage (eps : ℝ) (pts : List DrawingPoint) :
    Except PipelineError (List DrawingPoint) :=
  if (cleanTrace eps pts).length < 2 then .error .insufficientData
  else .ok (cleanTrace eps pts)

lemma chain_cleanFrom (eps : ℝ) (l : List DrawingPoint) :
    ∀ prev : DrawingPoint,
      List.Chain' (fun u v => u.t < v.t ∧ ¬ dist2 u v < eps) (prev :: cleanFrom eps prev l) := by
  induction l with
  | nil =>
    intro prev
    simp [cleanFrom]
  | cons p rest ih =>
    intro prev
    simp only [cleanFrom]
    split
    · rename_i hcond
      rw [List.chain'_cons]
      exact ⟨hcond, ih p⟩
    · exact ih prev

lemma cleanFrom_replicate_self (eps : ℝ) (p : DrawingPoint) :
    ∀ n, cleanFrom eps p (List.replicate n p) = [] := by
  intro n
  induction n with
  | zero => rfl
  | succ n ih =>
    rw [List.replicate_succ]
    simp only [cleanFrom]
    rw [if_neg]
    · exact ih
    · intro hc
      exact lt_irrefl _ hc.1

/-- Claim C5: the cleaner keeps only points whose timestamp strictly
exceeds and whose distance is at least ε from the previous kept point
(so the cleaned trace is a strictly-time-increasing, ε-separated chain),
the pipeline fails with `InsufficientDataError` whenever fewer than 2
points remain, and in particular a single point duplicated 10 times fails
rather than being scored. -/
theorem trace_cleaner_drops_and_fails (eps : ℝ) (pts : List DrawingPoint) :
    List.Chain' (fun u v => u.t < v.t ∧ ¬ dist2 u v < eps) (cleanTrace eps pts)
    ∧ ((cleanTrace eps pts).length < 2 → cleanStage eps pts = .error .insufficientData)
    ∧ ∀ p : DrawingPoint, cleanStage eps (List.replicate 10 p) = .error .insufficientData := by
  refine ⟨?_, ?_, ?_⟩
  · cases pts with
    | nil => simp [cleanTrace]
    | cons p rest => exact chain_cleanFrom eps rest p
  · intro h
    rw [cleanStage, if_pos h]
  · intro p
    have hclean : cleanTrace eps (List.replicate 10 p) = [p] := by
      rw [show List.replicate 10 p = p :: List.replicate 9 p from rfl, cleanTrace,
        cleanFrom_replicate_self]
    rw [cleanStage, hclean]
    norm_num

/-- Concrete instance of C5: ten copies of the origin sample fail with
`InsufficientDataError` at the default ε of 0.01. -/
theorem trace_cleaner_drops_and_fails_witness :
    cleanStage (1 / 100) (List.replicate 10 (⟨0, 0, 0⟩ : DrawingPoint))
      = .error .insufficientData :=
  (trace_cleaner_drops_and_fails (1 / 100) (List.replicate 10 ⟨0, 0, 0⟩)).2.2 ⟨0, 0, 0⟩

/-- The spec's reference spiral: centre and the Archimedean parameters of
`radius(θ) = a + b·θ`. -/
structure ReferenceSpiral where
  centerX : ℝ
  centerY : ℝ
  a : ℝ
  b : ℝ

/-- The spec's polar sample: radius, unwrapped angle and timestamp. -/
structure PolarPoint where
  radius : ℝ
  theta : ℝ
  t : ℝ

/-- Modelled from the spec: `radius = sqrt(dx² + dy²)` about the reference
centre (§4.2, in the missing `utils_scoring.py`). -/
noncomputable def radiusAbout (c : ReferenceSpiral) (p : DrawingPoint) : ℝ :=
  Real.sqrt ((p.x - c.centerX) ^ 2 + (p.y - c.centerY) ^ 2)

/-- Modelled from the spec: the raw wrapped angle `atan2(dy, dx)` about the
reference centre (§4.2, in the missing `utils_scoring.py`). -/
noncomputable def rawAngle (c : ReferenceSpiral) (p : DrawingPoint) : ℝ :=
  atan2 (p.y - c.centerY) (p.x - c.centerX)

/-- Modelled from the spec: the signed shortest-path delta between two raw
angles — the representative of the difference within half a turn of zero
(§4.2, in the missing `utils_scoring.py`). -/
noncomputable def shortestDelta (d : ℝ) : ℝ :=
  d - 2 * Real.pi * round (d / (2 * Real.pi))

/-- Modelled from the spec: angle unwrapping — each step adds the signed
shortest-path delta between consecutive raw angles to the running
unwrapped total (§4.2, in the missing `utils_scoring.py`). -/
noncomputable def unwrapFrom (c : ReferenceSpiral) (prevRaw prevTheta : ℝ) :
    List DrawingPoint → List PolarPoint
  | [] => []
  | p :: rest =>
      ⟨radiusAbout c p, prevTheta + shortestDelta (rawAngle c p - prevRaw), p.t⟩ ::
        unwrapFrom c (rawAngle c p) (prevTheta + shortestDelta (rawAngle c p - prevRaw)) rest

/-- Modelled from the spec: the Polar Transformer of the missing
`utils_scoring.py` — one polar sample per input point, the first carrying
its raw angle and the rest unwrapped from it (§4.2). -/
noncomputable def polarTransform (c : ReferenceSpiral) : List DrawingPoint → List PolarPoint
  | [] => []
  | p :: rest =>
      ⟨radiusAbout c p, rawAngle c p, p.t⟩ :: unwrapFrom c (rawAngle c p) (rawAngle c p) rest

/-- The ideal Archimedean radius `a + b·θ` at an unwrapped angle. -/
noncomputable def idealRadius (c : ReferenceSpiral) (theta : ℝ) : ℝ :=
  c.a + c.b * theta

/-- Modelled from the spec: the `radial_deviation` feature of the missing
`utils_scoring.py` — mean over points of `|radius − (a + b·θ)|` at the
unwrapped angle θ (§4.4). -/
noncomputable def radialDeviation (c : ReferenceSpiral) (pts : List DrawingPoint) : ℝ :=
  ((polarTransform c pts).map fun pp => |pp.radius - idealRadius c pp.theta|).sum
    / (pts.length : ℝ)

lemma unwrapFrom_length (c : ReferenceSpiral) (l : List DrawingPoint) :
    ∀ prevRaw prevTheta : ℝ, (unwrapFrom c prevRaw prevTheta l).length = l.length := by
  induction l with
  | nil => intro prevRaw prevTheta; rfl
  | cons p rest ih =>
    intro prevRaw prevTheta
    simp only [unwrapFrom, List.length_cons]
    rw [ih]

/-- Claim C4: `radial_deviation` is the mean over the trace of
`|radius − (a + b·θ)|` at the unwrapped angle θ; the polar series has one
entry per input point; and a trace whose radii match `a + b·θ` exactly at
its unwrapped angles has deviation 0. -/
theorem radial_deviation_mean_and_round_trip (c : ReferenceSpiral) (pts : List DrawingPoint) :
    radialDeviation c pts
      = ((polarTransform c pts).map fun pp => |pp.radius - (c.a + c.b * pp.theta)|).sum
        / (pts.length : ℝ)
    ∧ (polarTransform c pts).length = pts.length
    ∧ ((∀ pp ∈ polarTransform c pts, pp.radius = c.a + c.b * pp.theta) →
        radialDeviation c pts = 0) := by
  refine ⟨rfl, ?_, ?_⟩
  · cases pts with
    | nil => rfl
    | cons p rest =>
      simp only [polarTransform, List.length_cons]
      rw [unwrapFrom_length]
  · intro h
    have hsum : ((polarTransform c pts).map fun pp => |pp.radius - idealRadius c pp.theta|).sum
        = 0 := by
      apply List.sum_eq_zero
      intro x hx
      obtain ⟨pp, hpp, rfl⟩ := List.mem_map.mp hx
      rw [idealRadius, h pp hpp, sub_self, abs_zero]
    rw [radialDeviation, hsum, zero_div]

/-- Concrete instance of C4: a two-point synthetic trace on the circle
`radius = 1 + 0·θ` has radial deviation 0. -/
theorem radial_deviation_mean_and_round_trip_witness :
    radialDeviation ⟨0, 0, 1, 0⟩ [⟨1, 0, 0⟩, ⟨0, 1, 1⟩] = 0 :=
  (radial_deviation_mean_and_round_trip ⟨0, 0, 1, 0⟩ [⟨1, 0, 0⟩, ⟨0, 1, 1⟩]).2.2
    (by
      intro pp hpp
      simp only [polarTransform, unwrapFrom, List.mem_cons, List.not_mem_nil, or_false]
        at hpp
      rcases hpp with h | h <;>
        · subst h
          simp [radiusAbout])

/-! ## Claim C2: the severity scorer as a weighted sum of z-scores -/

/-- A finite metric-name → value table (z-scores, weights). -/
abbrev MetricMap := List (String × ℝ)

/-- First-match lookup in a metric table. -/
def wlookup : MetricMap → String → Option ℝ
  | [], _ => none
  | (k, v) :: rest, m => if k = m then some v else wlookup rest m

/-- Modelled from the spec: the Severity Scorer of the missing
`utils_scoring.py` — `severity_score = Σ(weight[m]·z[m]) / Σ|weight[m]|`
over the metrics present in both maps (§4.6). -/
noncomputable def severityScore (z w : MetricMap) : ℝ :=
  ((z.filter fun e => (wlookup w e.1).isSome).map fun e => (wlookup w e.1).getD 0 * e.2).sum
    / ((z.filter fun e => (wlookup w e.1).isSome).map fun e => |(wlookup w e.1).getD 0|).sum

lemma filter_some_sum (w : MetricMap) (g : String → ℝ → ℝ)
    (hg : ∀ m zv, wlookup w m = none → g m zv = 0) (z : MetricMap) :
    ((z.filter fun e => (wlookup w e.1).isSome).map fun e => g e.1 e.2).sum
      = (z.map fun e => g e.1 e.2).sum := by
  induction z with
  | nil => rfl
  | cons e z ih =>
    simp only [List.filter_cons]
    by_cases hc : (wlookup w e.1).isSome = true
    · rw [if_pos hc, List.map_cons, List.map_cons, List.sum_cons, List.sum_cons, ih]
    · have hnone : wlookup w e.1 = none := Option.not_isSome_iff_eq_none.mp (by simpa using hc)
      rw [if_neg hc, List.map_cons, List.sum_cons, ih, hg e.1 e.2 hnone, zero_add]

/-- Claim C2: the scorer computes `Σ(weight[m]·z[m]) / Σ|weight[m]|`, where
summing over all z-score entries with missing weights defaulted to 0 gives
the same value as summing over the metrics present in both maps; and a
z-score entry with no weight is ignored (no error), leaving the score
unchanged. -/
theorem severity_score_weighted_sum (z w : MetricMap) :
    severityScore z w
      = (z.map fun e => (wlookup w e.1).getD 0 * e.2).sum
        / (z.map fun e => |(wlookup w e.1).getD 0|).sum
    ∧ ∀ (m : String) (zv : ℝ), wlookup w m = none →
        severityScore ((m, zv) :: z) w = severityScore z w := by
  constructor
  · rw [severityScore,
      filter_some_sum w (fun m zv => (wlookup w m).getD 0 * zv)
        (fun m zv hm => by simp [hm]),
      filter_some_sum w (fun m zv => |(wlookup w m).getD 0|)
        (fun m zv hm => by simp [hm])]
  · intro m zv hm
    have hfilter :
        List.filter (fun e => (wlookup w e.1).isSome) ((m, zv) :: z)
          = List.filter (fun e => (wlookup w e.1).isSome) z := by
      simp [List.filter_cons, hm]
    rw [severityScore, severityScore, hfilter]

/-- Concrete instance of C2: adding a `mean_speed` z-score with no weight
entry leaves the score over `radial_deviation` unchanged. -/
theorem severity_score_weighted_sum_witness :
    severityScore [("mean_speed", 5), ("radial_deviation", 2)] [("radial_deviation", 1)]
      = severityScore [("radial_deviation", 2)] [("radial_deviation", 1)] :=
  (severity_score_weighted_sum [("radial_deviation", 2)] [("radial_deviation", 1)]).2
    ("mean_speed") 5 (by rw [wlookup, if_neg (by decide), wlookup])

end Tremor
